import Mathlib

/-!
Shallow embedding of the conversion, moniker-resolution and timestamp
layers of the `ni/datastore-python` client library, together with proofs
about the properties its design spec states.

The embedding follows the source files:
  * `src/ni/datastore/client.py` (the `Client` class),
  * `src/ni/datastore/conversion.py` (the converter registries),
  * `src/ni/datastore/publish_converters.py`,
  * `src/ni/datastore/read_converters.py`.

Modelling conventions:
  * IEEE-754 float64 payloads are never subjected to arithmetic by the
    conversion layer - they are copied bit-for-bit.  They are therefore
    modelled as opaque bit patterns (`Float64 := Int`), for which
    bit-for-bit equality is structural equality.
  * Python exceptions are modelled by an error type `PyError` whose
    constructors record the exception class and message.
  * Fallible code returns `Except PyError _`.
-/

namespace Datastore

/-- An IEEE-754 binary64 payload, modelled as its bit pattern.  The
conversion layer only ever copies these values, so no arithmetic on the
pattern is needed and equality of patterns is bit-for-bit equality. -/
abbrev Float64 := Int

/-- Model of `ni.protobuf.types.PrecisionTimestamp`: a 128-bit NI binary
time value (whole seconds and fractional seconds).  The protobuf default
message `PrecisionTimestamp()` is `⟨0, 0⟩`. -/
structure PrecisionTimestamp where
  seconds : Int
  fractionalSeconds : Int
deriving DecidableEq, Repr

/-- The default-constructed `PrecisionTimestamp()` sentinel. -/
def emptyPrecisionTimestamp : PrecisionTimestamp := ⟨0, 0⟩

/-- Model of `nitypes.bintime.DateTime`: an absolute timestamp on the
caller side.  `bintime_datetime_to_protobuf` converts it exactly into a
`PrecisionTimestamp`, so the model carries the converted image directly. -/
structure DateTime where
  toPrecision : PrecisionTimestamp
deriving DecidableEq, Repr

/-- Model of `ni.protobuf.types.precision_timestamp_conversion.bintime_datetime_to_protobuf`:
the exact (injective by construction) conversion from a bintime DateTime
to its protobuf representation. -/
def bintimeDatetimeToProtobuf (d : DateTime) : PrecisionTimestamp :=
  d.toPrecision

/-- Python exceptions raised by the embedded code, tagged with their
class.  `unboundLocalError n` stands for the `UnboundLocalError` Python
raises when a local variable `n` is read before assignment; `keyError k`
stands for the `KeyError` raised by an unguarded `dict` lookup. -/
inductive PyError
  | typeError (msg : String)
  | valueError (msg : String)
  | keyError (key : String)
  | unboundLocalError (name : String)
  | runtimeError (msg : String)
deriving DecidableEq, Repr

/-! ## Wire messages (`ni.protobuf.types` protobuf messages)

The wire schema is fixed by the collaborator service (spec section 6);
the message models below mirror its fields one-for-one.  Unit strings
model the `NI_UnitDescription` attribute map entry. -/

/-- The discriminated payload of the wire `Scalar` message (oneof
`bool_value` / `sint32_value` / `double_value` / `string_value`). -/
inductive ScalarPayload
  | boolValue (b : Bool)
  | sint32Value (n : Int)
  | doubleValue (x : Float64)
  | stringValue (s : String)
deriving DecidableEq, Repr

/-- Model of the wire `ni.protobuf.types.Scalar` message. -/
structure ScalarProto where
  payload : ScalarPayload
  units : String
deriving DecidableEq, Repr

instance : Inhabited ScalarProto := ⟨⟨.boolValue false, ""⟩⟩

/-- The homogeneous array union inside the wire `Vector` message. -/
inductive VectorArray
  | boolArray (xs : List Bool)
  | sint32Array (xs : List Int)
  | doubleArray (xs : List Float64)
  | stringArray (xs : List String)
deriving DecidableEq, Repr

/-- Model of the wire `ni.protobuf.types.Vector` message. -/
structure VectorProto where
  array : VectorArray
  units : String
deriving DecidableEq, Repr

instance : Inhabited VectorProto := ⟨⟨.doubleArray [], ""⟩⟩

/-- Model of the wire `ni.protobuf.types.DoubleAnalogWaveform` message:
float64 samples plus the regular-interval timing descriptor. -/
structure DoubleAnalogWaveformProto where
  t0 : PrecisionTimestamp
  dt : Float64
  yData : List Float64
  channelName : String
  units : String
deriving DecidableEq, Repr

instance : Inhabited DoubleAnalogWaveformProto :=
  ⟨⟨emptyPrecisionTimestamp, 0, [], "", ""⟩⟩

/-- Model of the wire `ni.protobuf.types.I16AnalogWaveform` message. -/
structure I16AnalogWaveformProto where
  t0 : PrecisionTimestamp
  dt : Float64
  yData : List Int
  channelName : String
  units : String
deriving DecidableEq, Repr

instance : Inhabited I16AnalogWaveformProto :=
  ⟨⟨emptyPrecisionTimestamp, 0, [], "", ""⟩⟩

/-- Model of the wire `ni.protobuf.types.DoubleComplexWaveform` message:
`yData` is the flat interleaved real/imaginary sample list. -/
structure DoubleComplexWaveformProto where
  t0 : PrecisionTimestamp
  dt : Float64
  yData : List Float64
  channelName : String
  units : String
deriving DecidableEq, Repr

instance : Inhabited DoubleComplexWaveformProto :=
  ⟨⟨emptyPrecisionTimestamp, 0, [], "", ""⟩⟩

/-- Model of the wire `ni.protobuf.types.I16ComplexWaveform` message:
`yData` is the flat interleaved real/imaginary sample list. -/
structure I16ComplexWaveformProto where
  t0 : PrecisionTimestamp
  dt : Float64
  yData : List Int
  channelName : String
  units : String
deriving DecidableEq, Repr

instance : Inhabited I16ComplexWaveformProto :=
  ⟨⟨emptyPrecisionTimestamp, 0, [], "", ""⟩⟩

/-- Model of the wire `ni.protobuf.types.DoubleSpectrum` message. -/
structure DoubleSpectrumProto where
  data : List Float64
  startFrequency : Float64
  frequencyIncrement : Float64
  units : String
deriving DecidableEq, Repr

instance : Inhabited DoubleSpectrumProto := ⟨⟨[], 0, 0, ""⟩⟩

/-- Model of the wire `ni.protobuf.types.DigitalWaveform` message: a 2-D
sample grid (samples x signal lines, line states as small integers) plus
the signal count and timing descriptor. -/
structure DigitalWaveformProto where
  t0 : PrecisionTimestamp
  dt : Float64
  data : List (List Int)
  signalCount : Nat
deriving DecidableEq, Repr

instance : Inhabited DigitalWaveformProto :=
  ⟨⟨emptyPrecisionTimestamp, 0, [], 0⟩⟩

/-- Model of the wire `ni.protobuf.types.DoubleXYData` message. -/
structure DoubleXYDataProto where
  xData : List Float64
  yData : List Float64
deriving DecidableEq, Repr

instance : Inhabited DoubleXYDataProto := ⟨⟨[], []⟩⟩

/-- The protobuf descriptor full names (`DESCRIPTOR.full_name`) of the
wire messages, as used for `google.protobuf.Any` type urls. -/
def scalarFullName : String := "ni.protobuf.types.Scalar"

def vectorFullName : String := "ni.protobuf.types.Vector"

def doubleAnalogWaveformFullName : String := "ni.protobuf.types.DoubleAnalogWaveform"

def i16AnalogWaveformFullName : String := "ni.protobuf.types.I16AnalogWaveform"

def doubleComplexWaveformFullName : String := "ni.protobuf.types.DoubleComplexWaveform"

def i16ComplexWaveformFullName : String := "ni.protobuf.types.I16ComplexWaveform"

def doubleSpectrumFullName : String := "ni.protobuf.types.DoubleSpectrum"

def digitalWaveformFullName : String := "ni.protobuf.types.DigitalWaveform"

def doubleXYDataFullName : String := "ni.protobuf.types.DoubleXYData"

/-- The scheme under which `Any.Pack` records type urls
(`data_type_prefix` in `client.py`). -/
def typeUrlBase : String := "type.googleapis.com/"

/-- The discriminated `value` oneof of a `PublishMeasurementRequest`:
one arm per wire payload kind (`scalar`, `vector`, the six
waveform/spectrum messages, and `double_xy_data`). -/
inductive WireValue
  | scalar (p : ScalarProto)
  | vector (p : VectorProto)
  | doubleAnalogWaveform (p : DoubleAnalogWaveformProto)
  | i16AnalogWaveform (p : I16AnalogWaveformProto)
  | doubleComplexWaveform (p : DoubleComplexWaveformProto)
  | i16ComplexWaveform (p : I16ComplexWaveformProto)
  | doubleSpectrum (p : DoubleSpectrumProto)
  | digitalWaveform (p : DigitalWaveformProto)
  | doubleXYData (p : DoubleXYDataProto)
deriving DecidableEq, Repr

/-- The descriptor full name of a wire payload. -/
def WireValue.fullName : WireValue → String
  | .scalar _ => scalarFullName
  | .vector _ => vectorFullName
  | .doubleAnalogWaveform _ => doubleAnalogWaveformFullName
  | .i16AnalogWaveform _ => i16AnalogWaveformFullName
  | .doubleComplexWaveform _ => doubleComplexWaveformFullName
  | .i16ComplexWaveform _ => i16ComplexWaveformFullName
  | .doubleSpectrum _ => doubleSpectrumFullName
  | .digitalWaveform _ => digitalWaveformFullName
  | .doubleXYData _ => doubleXYDataFullName

/-- Model of a `google.protobuf.Any` envelope (the type-erased
`WireEnvelope` of the spec).  Envelopes are modelled as produced by
`Any.Pack`: the payload bytes are kept in typed form and `typeUrl` is
the packing scheme plus the payload's descriptor full name. -/
structure AnyProto where
  typeUrl : String
  message : WireValue
deriving DecidableEq, Repr

/-- Modelled from the spec: the remote service returns published data as
a type-erased envelope whose identifier is the wire message's descriptor
full name (`Any.Pack`, as also performed by the repository's tests). -/
def packIntoAny (wv : WireValue) : AnyProto :=
  ⟨typeUrlBase ++ wv.fullName, wv⟩

/-- `Any.TypeName()`: the type url with the url scheme stripped. -/
def AnyProto.typeName (env : AnyProto) : String :=
  (env.typeUrl.data.drop typeUrlBase.length).asString

/-! ## Native value taxonomy (`nitypes`)

The native in-memory value kinds accepted by `publish` and produced by
`read_data`.  Waveform families are indexed by their element dtype, as
the `nitypes` classes are generic over a numpy dtype; one representative
unsupported dtype per family is included (`int32` analog, `complex64`
complex, `float32` spectrum) so that the dtype branches of the source
can be exercised. -/

/-- Shared shape of a regularly-sampled waveform with element type `α`:
samples, the timing descriptor (`t0`, `dt`) and descriptive attributes.
An unset time origin is the default sentinel `emptyPrecisionTimestamp`. -/
structure Waveform (α : Type) where
  yData : List α
  t0 : PrecisionTimestamp
  dt : Float64
  channelName : String
  units : String
deriving DecidableEq, Repr

/-- Model of `nitypes.waveform.AnalogWaveform`, tagged by element dtype
(`value.dtype` in the source). -/
inductive AnalogWaveformVal
  | f64 (w : Waveform Float64)
  | i16 (w : Waveform Int)
  | i32 (w : Waveform Int)
deriving DecidableEq, Repr

/-- The numpy dtype name of an analog waveform (`value.dtype` rendered
into the error message of the source). -/
def AnalogWaveformVal.dtypeName : AnalogWaveformVal → String
  | .f64 _ => "float64"
  | .i16 _ => "int16"
  | .i32 _ => "int32"

/-- Model of `nitypes.waveform.ComplexWaveform`, tagged by element
dtype: `complex128`, the int16-pair `ComplexInt32Base`, or the
unsupported `complex64`.  Samples are (real, imaginary) pairs. -/
inductive ComplexWaveformVal
  | c128 (w : Waveform (Float64 × Float64))
  | ci16 (w : Waveform (Int × Int))
  | c64 (w : Waveform (Float64 × Float64))
deriving DecidableEq, Repr

/-- The dtype name of a complex waveform. -/
def ComplexWaveformVal.dtypeName : ComplexWaveformVal → String
  | .c128 _ => "complex128"
  | .ci16 _ => "ComplexInt32Base"
  | .c64 _ => "complex64"

/-- Model of `nitypes.waveform.Spectrum`, tagged by element dtype. -/
inductive SpectrumVal
  | f64 (data : List Float64) (startFrequency : Float64)
      (frequencyIncrement : Float64) (units : String)
  | f32 (data : List Float64) (startFrequency : Float64)
      (frequencyIncrement : Float64) (units : String)
deriving DecidableEq, Repr

/-- The dtype name of a spectrum. -/
def SpectrumVal.dtypeName : SpectrumVal → String
  | .f64 _ _ _ _ => "float64"
  | .f32 _ _ _ _ => "float32"

/-- Model of `nitypes.waveform.DigitalWaveform`: a 2-D grid of per-line
states (samples x signal lines), a signal count and a timing
descriptor. -/
structure DigitalWaveformVal where
  data : List (List Int)
  signalCount : Nat
  t0 : PrecisionTimestamp
  dt : Float64
deriving DecidableEq, Repr

/-- Model of `nitypes.scalar.Scalar`: one primitive value plus a unit
description. -/
structure ScalarVal where
  payload : ScalarPayload
  units : String
deriving DecidableEq, Repr

/-- Model of `nitypes.vector.Vector`: a homogeneous primitive sequence
plus a unit description. -/
structure VectorVal where
  array : VectorArray
  units : String
deriving DecidableEq, Repr

/-- The polymorphic set of runtime values the client can be handed
(spec: Value taxonomy).  `rawDoubleXYData` is a raw wire message object
(the read path returns one for XY data); `pyBytes` and `pyNone` are
representative unsupported argument types. -/
inductive NativeValue
  | pyBool (b : Bool)
  | pyInt (n : Int)
  | pyFloat (x : Float64)
  | pyStr (s : String)
  | scalar (s : ScalarVal)
  | vector (v : VectorVal)
  | analogWaveform (w : AnalogWaveformVal)
  | complexWaveform (w : ComplexWaveformVal)
  | spectrum (s : SpectrumVal)
  | digitalWaveform (w : DigitalWaveformVal)
  | rawDoubleXYData (p : DoubleXYDataProto)
  | pyBytes (bs : List Nat)
  | pyNone
deriving DecidableEq, Repr

/-- The Python type name of a value, as rendered into the dispatch error
messages of `client.py` (Python decorates it as a class repr; the bare
name is kept here). -/
def NativeValue.pythonTypeName : NativeValue → String
  | .pyBool _ => "bool"
  | .pyInt _ => "int"
  | .pyFloat _ => "float"
  | .pyStr _ => "str"
  | .scalar _ => "Scalar"
  | .vector _ => "Vector"
  | .analogWaveform _ => "AnalogWaveform"
  | .complexWaveform _ => "ComplexWaveform"
  | .spectrum _ => "Spectrum"
  | .digitalWaveform _ => "DigitalWaveform"
  | .rawDoubleXYData _ => "DoubleXYData"
  | .pyBytes _ => "bytes"
  | .pyNone => "NoneType"

/-! ## External conversion helpers (`ni.protobuf.types` converters)

The `*_to_protobuf` / `*_from_protobuf` functions live in the external
`ni.protobuf.types` collaborator package, outside this repository.
Modelled from the spec: each maps its value onto the corresponding wire
message field-for-field, preserving dtype, units, shape and
frequency/timing attributes bit-for-bit (spec sections 4.2, 4.3, 8). -/

/-- Flatten a complex sample list into the interleaved wire layout. -/
def interleave {α : Type} : List (α × α) → List α
  | [] => []
  | (a, b) :: rest => a :: b :: interleave rest

/-- Reassemble interleaved wire data into complex samples. -/
def pairUp {α : Type} : List α → List (α × α)
  | a :: b :: rest => (a, b) :: pairUp rest
  | _ => []

/-- Modelled from the spec: `scalar_to_protobuf`. -/
def scalarToProtobuf (s : ScalarVal) : ScalarProto :=
  ⟨s.payload, s.units⟩

/-- Modelled from the spec: `scalar_from_protobuf` (applied by the
registry read converter for scalars). -/
def scalarFromProtobuf (p : ScalarProto) : ScalarVal :=
  ⟨p.payload, p.units⟩

/-- Modelled from the spec: `vector_to_protobuf`. -/
def vectorToProtobuf (v : VectorVal) : VectorProto :=
  ⟨v.array, v.units⟩

/-- Modelled from the spec: `vector_from_protobuf`. -/
def vectorFromProtobuf (p : VectorProto) : VectorVal :=
  ⟨p.array, p.units⟩

/-- Modelled from the spec: `float64_analog_waveform_to_protobuf`. -/
def float64AnalogWaveformToProtobuf (w : Waveform Float64) :
    DoubleAnalogWaveformProto :=
  ⟨w.t0, w.dt, w.yData, w.channelName, w.units⟩

/-- Modelled from the spec: `float64_analog_waveform_from_protobuf`. -/
def float64AnalogWaveformFromProtobuf (p : DoubleAnalogWaveformProto) :
    Waveform Float64 :=
  ⟨p.yData, p.t0, p.dt, p.channelName, p.units⟩

/-- Modelled from the spec: `int16_analog_waveform_to_protobuf`. -/
def int16AnalogWaveformToProtobuf (w : Waveform Int) :
    I16AnalogWaveformProto :=
  ⟨w.t0, w.dt, w.yData, w.channelName, w.units⟩

/-- Modelled from the spec: `int16_analog_waveform_from_protobuf`. -/
def int16AnalogWaveformFromProtobuf (p : I16AnalogWaveformProto) :
    Waveform Int :=
  ⟨p.yData, p.t0, p.dt, p.channelName, p.units⟩

/-- Modelled from the spec: `float64_complex_waveform_to_protobuf`
(samples interleaved on the wire). -/
def float64ComplexWaveformToProtobuf (w : Waveform (Float64 × Float64)) :
    DoubleComplexWaveformProto :=
  ⟨w.t0, w.dt, interleave w.yData, w.channelName, w.units⟩

/-- Modelled from the spec: `float64_complex_waveform_from_protobuf`. -/
def float64ComplexWaveformFromProtobuf (p : DoubleComplexWaveformProto) :
    Waveform (Float64 × Float64) :=
  ⟨pairUp p.yData, p.t0, p.dt, p.channelName, p.units⟩

/-- Modelled from the spec: `int16_complex_waveform_to_protobuf`. -/
def int16ComplexWaveformToProtobuf (w : Waveform (Int × Int)) :
    I16ComplexWaveformProto :=
  ⟨w.t0, w.dt, interleave w.yData, w.channelName, w.units⟩

/-- Modelled from the spec: `int16_complex_waveform_from_protobuf`. -/
def int16ComplexWaveformFromProtobuf (p : I16ComplexWaveformProto) :
    Waveform (Int × Int) :=
  ⟨pairUp p.yData, p.t0, p.dt, p.channelName, p.units⟩

/-- Modelled from the spec: `float64_spectrum_to_protobuf`. -/
def float64SpectrumToProtobuf (data : List Float64)
    (startFrequency frequencyIncrement : Float64) (units : String) :
    DoubleSpectrumProto :=
  ⟨data, startFrequency, frequencyIncrement, units⟩

/-- Modelled from the spec: `float64_spectrum_from_protobuf`. -/
def float64SpectrumFromProtobuf (p : DoubleSpectrumProto) : SpectrumVal :=
  .f64 p.data p.startFrequency p.frequencyIncrement p.units

/-- Modelled from the spec: `digital_waveform_to_protobuf`. -/
def digitalWaveformToProtobuf (w : DigitalWaveformVal) :
    DigitalWaveformProto :=
  ⟨w.t0, w.dt, w.data, w.signalCount⟩

/-- Modelled from the spec: `digital_waveform_from_protobuf`. -/
def digitalWaveformFromProtobuf (p : DigitalWaveformProto) :
    DigitalWaveformVal :=
  ⟨p.data, p.signalCount, p.t0, p.dt⟩

/-! ## `Client` conversion methods (`src/ni/datastore/client.py`) -/

/-- Assignment to the `sint32_value` field of the wire `Scalar`.  The
Python protobuf runtime validates the 32-bit signed range on assignment
and raises `ValueError` for values outside it, while Python ints are
unbounded. -/
def scalarSetSint32 (n : Int) : Except PyError Int :=
  if -(2 ^ 31) ≤ n ∧ n ≤ 2 ^ 31 - 1 then .ok n
  else .error (.valueError ("Value out of range: " ++ toString n))

/-- `Client._populate_publish_measurement_request_value`
(client.py lines 629-680): the isinstance chain over the value taxonomy
that fills the request's `value` oneof.  Returned is the oneof arm the
source writes; raised exceptions become `.error`. -/
def populatePublishMeasurementRequestValue (value : NativeValue) :
    Except PyError WireValue :=
  match value with
  | .pyBool b => .ok (.scalar ⟨.boolValue b, ""⟩)
  | .pyInt n =>
      match scalarSetSint32 n with
      | .error e => .error e
      | .ok m => .ok (.scalar ⟨.sint32Value m, ""⟩)
  | .pyFloat x => .ok (.scalar ⟨.doubleValue x, ""⟩)
  | .pyStr s => .ok (.scalar ⟨.stringValue s, ""⟩)
  | .scalar s => .ok (.scalar (scalarToProtobuf s))
  | .vector v => .ok (.vector (vectorToProtobuf v))
  | .analogWaveform w =>
      match w with
      | .f64 wf => .ok (.doubleAnalogWaveform (float64AnalogWaveformToProtobuf wf))
      | .i16 wf => .ok (.i16AnalogWaveform (int16AnalogWaveformToProtobuf wf))
      | .i32 _ =>
          .error (.typeError ("Unsupported AnalogWaveform dtype: " ++ w.dtypeName))
  | .complexWaveform w =>
      match w with
      | .c128 wf => .ok (.doubleComplexWaveform (float64ComplexWaveformToProtobuf wf))
      | .ci16 wf => .ok (.i16ComplexWaveform (int16ComplexWaveformToProtobuf wf))
      | .c64 _ =>
          .error (.typeError ("Unsupported ComplexWaveform dtype: " ++ w.dtypeName))
  | .spectrum s =>
      match s with
      | .f64 data f0 df units =>
          .ok (.doubleSpectrum (float64SpectrumToProtobuf data f0 df units))
      | .f32 _ _ _ _ =>
          .error (.typeError ("Unsupported Spectrum dtype: " ++ s.dtypeName))
  | .digitalWaveform w => .ok (.digitalWaveform (digitalWaveformToProtobuf w))
  | other =>
      .error (.typeError ("Unsupported measurement value type: "
        ++ other.pythonTypeName ++ ". Please consult the documentation."))

/-- The argument of the batch-publish methods: either a pre-built
`Vector` or some other Python object (the source only distinguishes
`isinstance(values, Vector)`). -/
inductive BatchValues
  | vector (v : VectorVal)
  | pyList (xs : List ScalarPayload)
  | pyNone
deriving DecidableEq, Repr

/-- Python type name of a batch argument, for the error message. -/
def BatchValues.pythonTypeName : BatchValues → String
  | .vector _ => "Vector"
  | .pyList _ => "list"
  | .pyNone => "NoneType"

/-- `Client._populate_publish_measurement_batch_request_values`
(client.py lines 682-692): accepts only a `Vector`, which is converted
into the request's `scalar_values` field; anything else raises
`TypeError`.  There is no emptiness check of any kind. -/
def populatePublishMeasurementBatchRequestValues (values : BatchValues) :
    Except PyError VectorProto :=
  match values with
  | .vector v => .ok (vectorToProtobuf v)
  | other =>
      .error (.typeError ("Unsupported measurement values type: "
        ++ other.pythonTypeName ++ ". Please consult the documentation."))

/-- `Client._populate_publish_condition_batch_request_values`
(client.py lines 617-627): same shape as the measurement batch
populate, with the condition wording. -/
def populatePublishConditionBatchRequestValues (values : BatchValues) :
    Except PyError VectorProto :=
  match values with
  | .vector v => .ok (vectorToProtobuf v)
  | other =>
      .error (.typeError ("Unsupported condition values type: "
        ++ other.pythonTypeName ++ ". Please consult the documentation."))

/-- `Client._unpack_data` (client.py lines 694-733): the if/elif chain
over the envelope's type url.  Exactly eight urls are recognized; any
other url reaches the final `else` and raises `TypeError`.  On a url
match, `Any.Unpack` fills a message of the matching type from the
envelope's payload (envelopes are modelled as well-formed, so the
payload is extracted; the default message stands for the degenerate
fill of an inconsistent envelope). -/
def unpackData (readValue : AnyProto) : Except PyError WireValue :=
  let dataTypeUrl := readValue.typeUrl
  if dataTypeUrl = typeUrlBase ++ doubleAnalogWaveformFullName then
    .ok (.doubleAnalogWaveform
      (match readValue.message with | .doubleAnalogWaveform p => p | _ => default))
  else if dataTypeUrl = typeUrlBase ++ i16AnalogWaveformFullName then
    .ok (.i16AnalogWaveform
      (match readValue.message with | .i16AnalogWaveform p => p | _ => default))
  else if dataTypeUrl = typeUrlBase ++ doubleComplexWaveformFullName then
    .ok (.doubleComplexWaveform
      (match readValue.message with | .doubleComplexWaveform p => p | _ => default))
  else if dataTypeUrl = typeUrlBase ++ i16ComplexWaveformFullName then
    .ok (.i16ComplexWaveform
      (match readValue.message with | .i16ComplexWaveform p => p | _ => default))
  else if dataTypeUrl = typeUrlBase ++ doubleSpectrumFullName then
    .ok (.doubleSpectrum
      (match readValue.message with | .doubleSpectrum p => p | _ => default))
  else if dataTypeUrl = typeUrlBase ++ digitalWaveformFullName then
    .ok (.digitalWaveform
      (match readValue.message with | .digitalWaveform p => p | _ => default))
  else if dataTypeUrl = typeUrlBase ++ doubleXYDataFullName then
    .ok (.doubleXYData
      (match readValue.message with | .doubleXYData p => p | _ => default))
  else if dataTypeUrl = typeUrlBase ++ vectorFullName then
    .ok (.vector
      (match readValue.message with | .vector p => p | _ => default))
  else
    .error (.typeError ("Unsupported data type URL: " ++ dataTypeUrl))

/-- `Client._convert_from_protobuf` (client.py lines 735-757): the
isinstance chain over the unpacked wire message.  `DoubleXYData` is
returned raw (conversion not yet implemented); a wire `Scalar` has no
branch and falls to the `else` raise. -/
def convertFromProtobufClient (unpackedData : WireValue) :
    Except PyError NativeValue :=
  match unpackedData with
  | .doubleAnalogWaveform p =>
      .ok (.analogWaveform (.f64 (float64AnalogWaveformFromProtobuf p)))
  | .i16AnalogWaveform p =>
      .ok (.analogWaveform (.i16 (int16AnalogWaveformFromProtobuf p)))
  | .doubleComplexWaveform p =>
      .ok (.complexWaveform (.c128 (float64ComplexWaveformFromProtobuf p)))
  | .i16ComplexWaveform p =>
      .ok (.complexWaveform (.ci16 (int16ComplexWaveformFromProtobuf p)))
  | .doubleSpectrum p => .ok (.spectrum (float64SpectrumFromProtobuf p))
  | .digitalWaveform p => .ok (.digitalWaveform (digitalWaveformFromProtobuf p))
  | .doubleXYData p => .ok (.rawDoubleXYData p)
  | .vector p => .ok (.vector (vectorFromProtobuf p))
  | .scalar _ =>
      .error (.typeError "Unsupported unpacked data type: Scalar")

/-- The publish-then-read composition of the claimed round trip:
populate the request oneof from a native value, let the service echo it
back as a type-erased envelope, unpack, and convert to a native
value. -/
def roundTrip (v : NativeValue) : Except PyError NativeValue :=
  match populatePublishMeasurementRequestValue v with
  | .error e => .error e
  | .ok wv =>
      match unpackData (packIntoAny wv) with
      | .error e => .error e
      | .ok unpacked => convertFromProtobufClient unpacked

/-! ## Timestamp reconciliation (`Client._get_publish_measurement_timestamp`) -/

/-- The part of a `PublishMeasurementRequest` the timestamp rule reads:
the `value` oneof filled by the populate step (`none` when unset). -/
structure PublishMeasurementRequest where
  value : Option WireValue
deriving DecidableEq, Repr

/-- The `WhichOneof` dispatch of `_get_publish_measurement_timestamp`
(client.py lines 570-581): the waveform `t0` is read for the five
waveform value cases and for no other case (`double_spectrum` carries
frequencies, not a `t0`). -/
def requestWaveformT0 (req : PublishMeasurementRequest) :
    Option PrecisionTimestamp :=
  match req.value with
  | some (.doubleAnalogWaveform p) => some p.t0
  | some (.i16AnalogWaveform p) => some p.t0
  | some (.doubleComplexWaveform p) => some p.t0
  | some (.i16ComplexWaveform p) => some p.t0
  | some (.digitalWaveform p) => some p.t0
  | _ => none

/-- The error message raised on a timestamp mismatch. -/
def timestampMismatchMsg : String :=
  "The provided timestamp does not match the waveform t0. Please provide a matching timestamp or omit the timestamp to use the waveform t0."

/-- `Client._get_publish_measurement_timestamp` (client.py lines
560-593).  `now` stands for `DateTime.now(timezone.utc)`, substituted
when the caller provides no timestamp. -/
def getPublishMeasurementTimestamp (now : DateTime)
    (publishRequest : PublishMeasurementRequest)
    (clientProvidedTimestamp : Option DateTime) :
    Except PyError PrecisionTimestamp :=
  let noClientTimestampProvided := clientProvidedTimestamp.isNone
  let publishTime :=
    match clientProvidedTimestamp with
    | none => bintimeDatetimeToProtobuf now
    | some ts => bintimeDatetimeToProtobuf ts
  match requestWaveformT0 publishRequest with
  | some waveformT0 =>
      if waveformT0 ≠ emptyPrecisionTimestamp then
        if noClientTimestampProvided then .ok waveformT0
        else if publishTime ≠ waveformT0 then
          .error (.valueError timestampMismatchMsg)
        else .ok publishTime
      else .ok publishTime
  | none => .ok publishTime

/-! ## Moniker resolution (`Client._get_moniker_client`, `Client.read_data`) -/

/-- Scheme characters after the leading letter (`urllib.parse`): letters,
digits, `+`, `-`, `.`. -/
def isSchemeTailChar (c : Char) : Bool :=
  c.isAlphanum || c = '+' || c = '-' || c = '.'

/-- A valid url scheme: a letter followed by scheme tail characters. -/
def validScheme (pre : List Char) : Bool :=
  match pre with
  | [] => false
  | c :: rest => c.isAlpha && rest.all isSchemeTailChar

/-- Strip a leading `scheme:` from a url, as `urllib.parse.urlsplit`
does: only when the text before the first colon is a valid scheme. -/
def splitSchemeRest (cs : List Char) : List Char :=
  let pre := cs.takeWhile (fun c => c != ':')
  match cs.dropWhile (fun c => c != ':') with
  | ':' :: rest => if validScheme pre then rest else cs
  | _ => cs

/-- `urlparse(service_location).netloc`: after stripping the scheme, the
authority is present only behind a literal `//` and extends to the next
`/`, `?` or `#`. -/
def urlparseNetloc (s : String) : String :=
  match splitSchemeRest s.data with
  | '/' :: '/' :: tail =>
      (tail.takeWhile (fun c => c != '/' && c != '?' && c != '#')).asString
  | _ => ""

/-- The per-client moniker connection cache
(`_moniker_clients_by_service_location` plus the id of the next
`MonikerClient` to be constructed; connection objects are modelled by
their creation ids, so identical ids model identity equality). -/
structure MonikerClientCache where
  entries : List (String × Nat)
  nextId : Nat
deriving DecidableEq, Repr

/-- Exact-match lookup in the cache dictionary. -/
def assocLookup (key : String) : List (String × Nat) → Option Nat
  | [] => none
  | (k, v) :: rest => if k = key then some v else assocLookup key rest

/-- `Client._get_moniker_client` (client.py lines 551-558): parse the
location to its netloc, then create-if-absent under the lock and return
the cached connection.  The lock serializes the calls, so the sequential
state-passing model captures the guarded behaviour. -/
def getMonikerClient (st : MonikerClientCache) (serviceLocation : String) :
    MonikerClientCache × Nat :=
  let parsedServiceLocation := urlparseNetloc serviceLocation
  match assocLookup parsedServiceLocation st.entries with
  | some client => (st, client)
  | none =>
      (⟨st.entries ++ [(parsedServiceLocation, st.nextId)], st.nextId + 1⟩,
        st.nextId)

/-- Model of `ni.datamonikers.v1.data_moniker_pb2.Moniker`. -/
structure MonikerVal where
  serviceLocation : String
  dataSource : String
  dataInstance : Int
deriving DecidableEq, Repr

/-- Model of a `PublishedMeasurement` wire record, as far as
`read_data` consumes it: it owns a moniker. -/
structure PublishedMeasurementVal where
  moniker : MonikerVal
deriving DecidableEq, Repr

/-- Model of a `PublishedCondition` wire record. -/
structure PublishedConditionVal where
  moniker : MonikerVal
deriving DecidableEq, Repr

/-- The runtime type of the `moniker_source` argument of
`Client.read_data`: the three annotated types, or any other object
(`otherTypeName` records its Python type name). -/
inductive MonikerSource
  | moniker (m : MonikerVal)
  | publishedMeasurement (pm : PublishedMeasurementVal)
  | publishedCondition (pc : PublishedConditionVal)
  | otherObject (otherTypeName : String)
deriving DecidableEq, Repr

/-- The moniker-resolution head of `Client.read_data` (client.py lines
262-269): an isinstance chain with no `else` branch.  For any other
argument type the local `moniker` is never assigned, and the subsequent
`moniker.service_location` access raises `UnboundLocalError`. -/
def readDataResolveMoniker (monikerSource : MonikerSource) :
    Except PyError MonikerVal :=
  match monikerSource with
  | .moniker m => .ok m
  | .publishedMeasurement pm => .ok pm.moniker
  | .publishedCondition pc => .ok pc.moniker
  | .otherObject _ => .error (.unboundLocalError "moniker")

/-! ## Converter registries (`src/ni/datastore/conversion.py`) -/

/-- `_get_type_string` identity strings (`module.name`) of the ten
registered publish converters, in registration order (conversion.py
lines 42-53; the strings are fixed by the repository's
`test_convert.py`). -/
def publishConverterKeys : List String :=
  [ "builtins.bool"
  , "nitypes.waveform.AnalogWaveform"
  , "nitypes.waveform.ComplexWaveform"
  , "nitypes.waveform.DigitalWaveform"
  , "builtins.int"
  , "builtins.float"
  , "builtins.str"
  , "nitypes.scalar.Scalar"
  , "nitypes.vector.Vector"
  , "nitypes.waveform.Spectrum"
  ]

/-- `_get_publish_converter` (conversion.py lines 122-126): exact-match
lookup of the value's identity string; a miss raises `TypeError` with
the message written in the source.  The returned key stands for the
selected converter object. -/
def getPublishConverter (typeString : String) : Except PyError String :=
  if typeString ∈ publishConverterKeys then .ok typeString
  else
    .error (.typeError ("Invalid publish converter type string: " ++ typeString))

/-- The wire type identifiers (`protobuf_typename`) of the eight read
converters listed in `_READ_CONVERTERS` (conversion.py lines 59-68),
including the `Scalar` entry whose converter class the module imports
but `read_converters.py` never defines. -/
def readConverterKeys : List String :=
  [ doubleAnalogWaveformFullName
  , doubleComplexWaveformFullName
  , doubleSpectrumFullName
  , digitalWaveformFullName
  , i16AnalogWaveformFullName
  , i16ComplexWaveformFullName
  , scalarFullName
  , vectorFullName
  ]

/-- `ReadConverter.to_python` of the converter keyed by a registry
entry: unpack the envelope into the converter's message type and
reconstruct the native value (read_converters.py lines 113-123 and the
converter classes). -/
def readConverterToPython (key : String) (env : AnyProto) :
    Except PyError NativeValue :=
  if env.typeName ≠ key then
    .error (.valueError ("Failed to unpack Any with type " ++ env.typeName))
  else
    match env.message with
    | .doubleAnalogWaveform p =>
        .ok (.analogWaveform (.f64 (float64AnalogWaveformFromProtobuf p)))
    | .i16AnalogWaveform p =>
        .ok (.analogWaveform (.i16 (int16AnalogWaveformFromProtobuf p)))
    | .doubleComplexWaveform p =>
        .ok (.complexWaveform (.c128 (float64ComplexWaveformFromProtobuf p)))
    | .i16ComplexWaveform p =>
        .ok (.complexWaveform (.ci16 (int16ComplexWaveformFromProtobuf p)))
    | .doubleSpectrum p => .ok (.spectrum (float64SpectrumFromProtobuf p))
    | .digitalWaveform p =>
        .ok (.digitalWaveform (digitalWaveformFromProtobuf p))
    | .scalar p => .ok (.scalar (scalarFromProtobuf p))
    | .vector p => .ok (.vector (vectorFromProtobuf p))
    | .doubleXYData _ =>
        .error (.valueError ("Failed to unpack Any with type " ++ env.typeName))

/-- `convert_from_protobuf` (conversion.py lines 75-83): look the
envelope's `TypeName()` up in `_READ_CONVERTERS_BY_PROTOBUF_TYPE` and
delegate to the converter.  The lookup is an unguarded dictionary
subscription, so a missing identifier raises `KeyError`, not a typed
message. -/
def convertFromProtobufRegistry (protobufAny : AnyProto) :
    Except PyError NativeValue :=
  let underlyingTypename := protobufAny.typeName
  if underlyingTypename ∈ readConverterKeys then
    readConverterToPython underlyingTypename protobufAny
  else
    .error (.keyError underlyingTypename)

/-! ## Module-level import structure (`conversion.py` / `read_converters.py`) -/

/-- The top-level names `read_converters.py` defines (its functions and
classes, source lines 36-215). -/
def readConvertersDefinedNames : List String :=
  [ "unpack_data"
  , "convert_from_protobuf"
  , "ReadConverter"
  , "DoubleAnalogWaveformReadConverter"
  , "I16AnalogWaveformReadConverter"
  , "DoubleComplexWaveformReadConverter"
  , "I16ComplexWaveformReadConverter"
  , "DoubleSpectrumReadConverter"
  , "DigitalWaveformReadConverter"
  , "VectorReadConverter"
  ]

/-- The names `conversion.py` imports from `ni.datastore.read_converters`
(conversion.py lines 30-40). -/
def conversionImportsFromReadConverters : List String :=
  [ "DigitalWaveformReadConverter"
  , "DoubleAnalogWaveformReadConverter"
  , "DoubleComplexWaveformReadConverter"
  , "DoubleSpectrumReadConverter"
  , "I16AnalogWaveformReadConverter"
  , "I16ComplexWaveformReadConverter"
  , "ReadConverter"
  , "ScalarReadConverter"
  , "VectorReadConverter"
  ]

/-! ## The close state machine of the data store client

Modelled from the spec: the `DataStoreClient` of the `ni.datastore.data`
package is absent from the source tree (only its unit tests, e.g.
`tests/unit/data/test_close_client.py`, are present).  Spec section 5:
closing the client is a one-way `{open → closed}` transition, safe to
call twice, after which every operation fails fast with a typed
client-is-closed error instead of performing network I/O. -/

/-- The observable client state: open or closed. -/
structure DataStoreClientModel where
  closed : Bool
deriving DecidableEq, Repr

/-- The canonical client-is-closed error message. -/
def clientClosedMsg : String := "This client has been closed."

/-- Modelled from the spec: `DataStoreClient.close` releases the cached
connections and marks the client closed; it never raises. -/
def DataStoreClientModel.close (_c : DataStoreClientModel) :
    DataStoreClientModel :=
  ⟨true⟩

/-- Modelled from the spec: every public publish/read operation first
checks the closed flag and fails fast with the typed closed error;
`operation` stands for the remote interaction performed when open. -/
def DataStoreClientModel.runOperation {α : Type}
    (c : DataStoreClientModel) (operation : α) : Except PyError α :=
  if c.closed then .error (.runtimeError clientClosedMsg)
  else .ok operation

/-- The value kinds for which the read path has both an unpack branch
and a conversion branch: everything the publish path accepts except the
scalar kinds (whose wire `Scalar` message `_unpack_data` does not
recognize). -/
def readableKind : NativeValue → Bool
  | .vector _ => true
  | .analogWaveform (.f64 _) => true
  | .analogWaveform (.i16 _) => true
  | .complexWaveform (.c128 _) => true
  | .complexWaveform (.ci16 _) => true
  | .digitalWaveform _ => true
  | .spectrum (.f64 _ _ _ _) => true
  | _ => false

/-- The eight type urls the `_unpack_data` if/elif chain compares
against, in source order (client.py lines 699-730). -/
def recognizedDataTypeUrls : List String :=
  [ typeUrlBase ++ doubleAnalogWaveformFullName
  , typeUrlBase ++ i16AnalogWaveformFullName
  , typeUrlBase ++ doubleComplexWaveformFullName
  , typeUrlBase ++ i16ComplexWaveformFullName
  , typeUrlBase ++ doubleSpectrumFullName
  , typeUrlBase ++ digitalWaveformFullName
  , typeUrlBase ++ doubleXYDataFullName
  , typeUrlBase ++ vectorFullName
  ]

/-- The moniker connection cache holds at most one entry per parsed
location: its keys are pairwise distinct. -/
def cacheKeysNodup (st : MonikerClientCache) : Prop :=
  (st.entries.map Prod.fst).Nodup

/-! ## Theorems -/

theorem pairUp_interleave {α : Type} (l : List (α × α)) :
    pairUp (interleave l) = l := by
  induction l with
  | nil => rfl
  | cons hd tl ih => cases hd; simp [interleave, pairUp, ih]

/-- Unpacking an envelope produced by `Any.Pack` recovers the packed
wire message - except for the wire `Scalar`, which `_unpack_data` does
not recognize. -/
theorem unpackData_packIntoAny (wv : WireValue) (h : ∀ p, wv ≠ .scalar p) :
    unpackData (packIntoAny wv) = .ok wv := by
  cases wv with
  | scalar p => exact absurd rfl (h p)
  | vector p => rfl
  | doubleAnalogWaveform p => rfl
  | i16AnalogWaveform p => rfl
  | doubleComplexWaveform p => rfl
  | i16ComplexWaveform p => rfl
  | doubleSpectrum p => rfl
  | digitalWaveform p => rfl
  | doubleXYData p => rfl

/-- An `Any.Pack`-produced envelope holding a wire `Scalar` is rejected
by `_unpack_data` with the unsupported-data-type error. -/
theorem unpackData_packIntoAny_scalar (p : ScalarProto) :
    unpackData (packIntoAny (.scalar p)) =
      .error (.typeError ("Unsupported data type URL: "
        ++ typeUrlBase ++ scalarFullName)) := by
  rfl

/-- Reduction of the round trip once the populate step is known. -/
theorem roundTrip_eq (v : NativeValue) (wv : WireValue)
    (hp : populatePublishMeasurementRequestValue v = .ok wv) :
    roundTrip v =
      match unpackData (packIntoAny wv) with
      | .error e => .error e
      | .ok unpacked => convertFromProtobufClient unpacked := by
  unfold roundTrip
  rw [hp]

/-- Claim C1 (counterexample): the round trip is not the identity on
scalar kinds.  Publishing the boolean `True` populates the `scalar`
oneof arm, whose wire envelope `_unpack_data` rejects with the
unsupported-data-type error, so the value can never be read back. -/
theorem roundTrip_bool_unsupported :
    roundTrip (.pyBool true) =
      .error (.typeError
        "Unsupported data type URL: type.googleapis.com/ni.protobuf.types.Scalar") := by
  rfl

/-- Claim C1 (amended): the conversion round trip
(`_populate_publish_measurement_request_value`, then `_unpack_data` and
`_convert_from_protobuf` on the corresponding wire envelope) is the
identity - dtype, units, shape and frequency/timing attributes preserved
bit-for-bit - for every supported NON-scalar value kind: Vector,
float64/int16 AnalogWaveform, complex128/int16-pair ComplexWaveform,
DigitalWaveform and float64 Spectrum.  For scalar primitives and Scalar
the read path has no wire `Scalar` branch and raises instead. -/
theorem roundTrip_nonscalar_identity (v : NativeValue)
    (h : readableKind v = true) : roundTrip v = .ok v := by
  cases v with
  | vector vv => rfl
  | digitalWaveform w => rfl
  | analogWaveform w =>
      cases w with
      | f64 wf => rfl
      | i16 wf => rfl
      | i32 wf => simp [readableKind] at h
  | complexWaveform w =>
      cases w with
      | c128 wf =>
          rw [roundTrip_eq (.complexWaveform (.c128 wf))
              (.doubleComplexWaveform (float64ComplexWaveformToProtobuf wf)) rfl,
            unpackData_packIntoAny _ (fun p => by simp)]
          have hy : pairUp (interleave wf.yData) = wf.yData :=
            pairUp_interleave _
          simp [convertFromProtobufClient, float64ComplexWaveformToProtobuf,
            float64ComplexWaveformFromProtobuf, hy]
      | ci16 wf =>
          rw [roundTrip_eq (.complexWaveform (.ci16 wf))
              (.i16ComplexWaveform (int16ComplexWaveformToProtobuf wf)) rfl,
            unpackData_packIntoAny _ (fun p => by simp)]
          have hy : pairUp (interleave wf.yData) = wf.yData :=
            pairUp_interleave _
          simp [convertFromProtobufClient, int16ComplexWaveformToProtobuf,
            int16ComplexWaveformFromProtobuf, hy]
      | c64 wf => simp [readableKind] at h
  | spectrum s =>
      cases s with
      | f64 data f0 df units => rfl
      | f32 data f0 df units => simp [readableKind] at h
  | pyBool b => simp [readableKind] at h
  | pyInt n => simp [readableKind] at h
  | pyFloat x => simp [readableKind] at h
  | pyStr s => simp [readableKind] at h
  | scalar s => simp [readableKind] at h
  | rawDoubleXYData p => simp [readableKind] at h
  | pyBytes bs => simp [readableKind] at h
  | pyNone => simp [readableKind] at h

/-- Witness for the amended claim C1 at a concrete vector value. -/
theorem roundTrip_nonscalar_identity_witness :
    readableKind (.vector ⟨.doubleArray [1, 2, 3], "volts"⟩) = true ∧
      roundTrip (.vector ⟨.doubleArray [1, 2, 3], "volts"⟩) =
        .ok (.vector ⟨.doubleArray [1, 2, 3], "volts"⟩) :=
  ⟨rfl, roundTrip_nonscalar_identity _ rfl⟩

/-- Claim C2: timestamp reconciliation in `publish_measurement` is a
pure function of the explicit caller timestamp, the waveform `t0` and
whether the value is a waveform kind, with exactly four behaviours:
(1) non-waveform values use the explicit timestamp verbatim, the current
time when it is absent; (2) a waveform with non-default `t0` and no
explicit timestamp publishes at `t0`; (3) a waveform with non-default
`t0` and an explicit timestamp succeeds at that timestamp when the two
are equal and raises the mismatch value error when they differ; (4) a
waveform whose `t0` is the default sentinel behaves as a non-waveform
value. -/
theorem publish_timestamp_reconciliation :
    (∀ (now : DateTime) (req : PublishMeasurementRequest) (ts : DateTime),
        requestWaveformT0 req = none →
          getPublishMeasurementTimestamp now req (some ts) =
              .ok ts.toPrecision ∧
            getPublishMeasurementTimestamp now req none =
              .ok now.toPrecision) ∧
    (∀ (now : DateTime) (req : PublishMeasurementRequest)
        (t0 : PrecisionTimestamp),
        requestWaveformT0 req = some t0 → t0 ≠ emptyPrecisionTimestamp →
          getPublishMeasurementTimestamp now req none = .ok t0) ∧
    (∀ (now : DateTime) (req : PublishMeasurementRequest)
        (t0 : PrecisionTimestamp) (ts : DateTime),
        requestWaveformT0 req = some t0 → t0 ≠ emptyPrecisionTimestamp →
          (ts.toPrecision = t0 →
            getPublishMeasurementTimestamp now req (some ts) =
              .ok ts.toPrecision) ∧
          (ts.toPrecision ≠ t0 →
            getPublishMeasurementTimestamp now req (some ts) =
              .error (.valueError timestampMismatchMsg))) ∧
    (∀ (now : DateTime) (req : PublishMeasurementRequest)
        (ts : Option DateTime) (t0 : PrecisionTimestamp),
        requestWaveformT0 req = some t0 → t0 = emptyPrecisionTimestamp →
          getPublishMeasurementTimestamp now req ts =
            getPublishMeasurementTimestamp now ⟨none⟩ ts) := by
  refine ⟨?_, ?_, ?_, ?_⟩
  · intro now req ts h
    constructor <;>
      simp [getPublishMeasurementTimestamp, h, bintimeDatetimeToProtobuf]
  · intro now req t0 h ht
    simp [getPublishMeasurementTimestamp, h, ht]
  · intro now req t0 ts h ht
    constructor
    · intro he
      simp [getPublishMeasurementTimestamp, h, ht, bintimeDatetimeToProtobuf, he]
    · intro hne
      simp [getPublishMeasurementTimestamp, h, ht, bintimeDatetimeToProtobuf, hne]
  · intro now req ts t0 h ht
    have hrhs : requestWaveformT0 ⟨none⟩ = none := rfl
    cases ts <;> simp [getPublishMeasurementTimestamp, h, ht, hrhs]

/-- Witness for claim C2: the four behaviours at concrete inputs (a
scalar request, and an analog waveform request with `t0 = ⟨100, 5⟩`). -/
theorem publish_timestamp_reconciliation_witness :
    getPublishMeasurementTimestamp ⟨⟨7, 0⟩⟩
        ⟨some (.scalar ⟨.boolValue true, ""⟩)⟩ none = .ok ⟨7, 0⟩ ∧
    getPublishMeasurementTimestamp ⟨⟨7, 0⟩⟩
        ⟨some (.doubleAnalogWaveform ⟨⟨100, 5⟩, 1, [], "", ""⟩)⟩ none =
      .ok ⟨100, 5⟩ ∧
    getPublishMeasurementTimestamp ⟨⟨7, 0⟩⟩
        ⟨some (.doubleAnalogWaveform ⟨⟨100, 5⟩, 1, [], "", ""⟩)⟩
        (some ⟨⟨100, 5⟩⟩) = .ok ⟨100, 5⟩ ∧
    getPublishMeasurementTimestamp ⟨⟨7, 0⟩⟩
        ⟨some (.doubleAnalogWaveform ⟨⟨100, 5⟩, 1, [], "", ""⟩)⟩
        (some ⟨⟨100, 6⟩⟩) = .error (.valueError timestampMismatchMsg) :=
  ⟨(publish_timestamp_reconciliation.1 ⟨⟨7, 0⟩⟩
      ⟨some (.scalar ⟨.boolValue true, ""⟩)⟩ ⟨⟨0, 0⟩⟩ rfl).2,
   publish_timestamp_reconciliation.2.1 ⟨⟨7, 0⟩⟩
      ⟨some (.doubleAnalogWaveform ⟨⟨100, 5⟩, 1, [], "", ""⟩)⟩ ⟨100, 5⟩ rfl
      (by decide),
   (publish_timestamp_reconciliation.2.2.1 ⟨⟨7, 0⟩⟩
      ⟨some (.doubleAnalogWaveform ⟨⟨100, 5⟩, 1, [], "", ""⟩)⟩ ⟨100, 5⟩
      ⟨⟨100, 5⟩⟩ rfl (by decide)).1 rfl,
   (publish_timestamp_reconciliation.2.2.1 ⟨⟨7, 0⟩⟩
      ⟨some (.doubleAnalogWaveform ⟨⟨100, 5⟩, 1, [], "", ""⟩)⟩ ⟨100, 5⟩
      ⟨⟨100, 6⟩⟩ rfl (by decide)).2 (by decide)⟩

/-- Claim C3: waveform publish conversion is dtype-specific.  An
AnalogWaveform populates `double_analog_waveform` exactly for float64
elements and `i16_analog_waveform` exactly for int16 elements, raising
on any other dtype (int32); a ComplexWaveform populates
`double_complex_waveform` for complex128 and `i16_complex_waveform` for
int16-pair elements, raising otherwise; a Spectrum populates
`double_spectrum` for float64 elements, raising otherwise. -/
theorem waveform_publish_dtype_specific :
    (∀ w : Waveform Float64,
        populatePublishMeasurementRequestValue (.analogWaveform (.f64 w)) =
          .ok (.doubleAnalogWaveform (float64AnalogWaveformToProtobuf w))) ∧
    (∀ w : Waveform Int,
        populatePublishMeasurementRequestValue (.analogWaveform (.i16 w)) =
          .ok (.i16AnalogWaveform (int16AnalogWaveformToProtobuf w))) ∧
    (∀ w : Waveform Int,
        populatePublishMeasurementRequestValue (.analogWaveform (.i32 w)) =
          .error (.typeError "Unsupported AnalogWaveform dtype: int32")) ∧
    (∀ w : Waveform (Float64 × Float64),
        populatePublishMeasurementRequestValue (.complexWaveform (.c128 w)) =
          .ok (.doubleComplexWaveform (float64ComplexWaveformToProtobuf w))) ∧
    (∀ w : Waveform (Int × Int),
        populatePublishMeasurementRequestValue (.complexWaveform (.ci16 w)) =
          .ok (.i16ComplexWaveform (int16ComplexWaveformToProtobuf w))) ∧
    (∀ w : Waveform (Float64 × Float64),
        populatePublishMeasurementRequestValue (.complexWaveform (.c64 w)) =
          .error (.typeError "Unsupported ComplexWaveform dtype: complex64")) ∧
    (∀ (data : List Float64) (f0 df : Float64) (units : String),
        populatePublishMeasurementRequestValue
            (.spectrum (.f64 data f0 df units)) =
          .ok (.doubleSpectrum (float64SpectrumToProtobuf data f0 df units))) ∧
    (∀ (data : List Float64) (f0 df : Float64) (units : String),
        populatePublishMeasurementRequestValue
            (.spectrum (.f32 data f0 df units)) =
          .error (.typeError "Unsupported Spectrum dtype: float32")) :=
  ⟨fun _ => rfl, fun _ => rfl, fun _ => rfl, fun _ => rfl, fun _ => rfl,
   fun _ => rfl, fun _ _ _ _ => rfl, fun _ _ _ _ => rfl⟩

/-- Claim C5: the batch populate helpers of `client.py` perform no
empty-sequence check.  A zero-length plain sequence is rejected with the
unsupported-values `TypeError` (not an empty-sequence error), and a
zero-length `Vector` is serialized successfully as an empty wire array -
the behaviour the repository's own unit tests
(`Cannot publish an empty Iterable.`) contradict. -/
theorem batch_publish_no_empty_check :
    populatePublishMeasurementBatchRequestValues (.pyList []) =
      .error (.typeError
        "Unsupported measurement values type: list. Please consult the documentation.") ∧
    populatePublishConditionBatchRequestValues (.pyList []) =
      .error (.typeError
        "Unsupported condition values type: list. Please consult the documentation.") ∧
    populatePublishMeasurementBatchRequestValues
        (.vector ⟨.doubleArray [], "volts"⟩) = .ok ⟨.doubleArray [], "volts"⟩ ∧
    populatePublishConditionBatchRequestValues
        (.vector ⟨.doubleArray [], "volts"⟩) = .ok ⟨.doubleArray [], "volts"⟩ :=
  ⟨rfl, rfl, rfl, rfl⟩

/-- Claim C9: `read_data` resolves a moniker for exactly the three
annotated source types; its isinstance chain has no else branch, so any
other argument leaves the local `moniker` unassigned and the call fails
with `UnboundLocalError`, not a typed dispatch error. -/
theorem read_data_moniker_dispatch :
    (∀ m, readDataResolveMoniker (.moniker m) = .ok m) ∧
    (∀ pm, readDataResolveMoniker (.publishedMeasurement pm) =
      .ok pm.moniker) ∧
    (∀ pc, readDataResolveMoniker (.publishedCondition pc) =
      .ok pc.moniker) ∧
    (∀ t, readDataResolveMoniker (.otherObject t) =
      .error (.unboundLocalError "moniker")) :=
  ⟨fun _ => rfl, fun _ => rfl, fun _ => rfl, fun _ => rfl⟩

/-- Claim C10: Python ints are published into the 32-bit signed
`sint32_value` field: publish succeeds with the exact value on
`[-2^31, 2^31 - 1]` and the protobuf field assignment raises
`ValueError` outside that range, although Python ints are unbounded. -/
theorem int_publish_sint32_range (n : Int) :
    (-(2 ^ 31) ≤ n → n ≤ 2 ^ 31 - 1 →
      populatePublishMeasurementRequestValue (.pyInt n) =
        .ok (.scalar ⟨.sint32Value n, ""⟩)) ∧
    (n < -(2 ^ 31) ∨ 2 ^ 31 - 1 < n →
      populatePublishMeasurementRequestValue (.pyInt n) =
        .error (.valueError ("Value out of range: " ++ toString n))) := by
  constructor
  · intro h1 h2
    have hs : scalarSetSint32 n = .ok n := by
      unfold scalarSetSint32
      rw [if_pos ⟨h1, h2⟩]
    simp [populatePublishMeasurementRequestValue, hs]
  · intro h
    have hs : scalarSetSint32 n =
        .error (.valueError ("Value out of range: " ++ toString n)) := by
      unfold scalarSetSint32
      rw [if_neg (by omega)]
    simp [populatePublishMeasurementRequestValue, hs]

/-- Witness for claim C10 at the edge of the range and just past it. -/
theorem int_publish_sint32_range_witness :
    populatePublishMeasurementRequestValue (.pyInt 2147483647) =
      .ok (.scalar ⟨.sint32Value 2147483647, ""⟩) ∧
    populatePublishMeasurementRequestValue (.pyInt 2147483648) =
      .error (.valueError ("Value out of range: " ++ toString (2147483648 : Int))) :=
  ⟨(int_publish_sint32_range 2147483647).1 (by decide) (by decide),
   (int_publish_sint32_range 2147483648).2 (Or.inr (by decide))⟩

/-- Claim C4 (counterexample): a read-registry miss is NOT the typed
unsupported-data-type error the spec documents.  For the wire
`DoubleXYData` envelope - a type with no entry in `_READ_CONVERTERS` -
`conversion.convert_from_protobuf` raises a bare `KeyError` from the
unguarded dictionary subscription. -/
theorem read_registry_miss_keyerror_counterexample :
    convertFromProtobufRegistry (packIntoAny (.doubleXYData ⟨[], []⟩)) =
      .error (.keyError "ni.protobuf.types.DoubleXYData") := by
  rfl

/-- Claim C4 (amended): in the registry module (`conversion.py`), a miss
on an outgoing identity string raises `TypeError` with the message
`Invalid publish converter type string: {kind}` (naming the kind), and a
miss on an incoming wire type-identifier raises a bare `KeyError`
carrying the identifier - the dictionary lookup is unguarded, so no
typed unsupported-data-type message is produced; in neither direction is
there a fallback, coercion or partial match. -/
theorem registry_miss_errors_amended :
    (∀ ts : String, ts ∉ publishConverterKeys →
      getPublishConverter ts =
        .error (.typeError ("Invalid publish converter type string: " ++ ts))) ∧
    (∀ env : AnyProto, env.typeName ∉ readConverterKeys →
      convertFromProtobufRegistry env = .error (.keyError env.typeName)) := by
  constructor
  · intro ts h
    simp [getPublishConverter, h]
  · intro env h
    simp [convertFromProtobufRegistry, h]

/-- Witness for the amended claim C4: a `bytes` value on the publish
side and a `DoubleXYData` envelope on the read side. -/
theorem registry_miss_errors_amended_witness :
    getPublishConverter "builtins.bytes" =
      .error (.typeError
        "Invalid publish converter type string: builtins.bytes") ∧
    convertFromProtobufRegistry ⟨typeUrlBase ++ doubleXYDataFullName,
        .doubleXYData ⟨[], []⟩⟩ =
      .error (.keyError
        (AnyProto.typeName ⟨typeUrlBase ++ doubleXYDataFullName,
          .doubleXYData ⟨[], []⟩⟩)) :=
  ⟨registry_miss_errors_amended.1 "builtins.bytes" (by decide),
   registry_miss_errors_amended.2 _ (by decide)⟩

theorem assocLookup_append_of_none (k : String) (v : Nat) :
    ∀ l : List (String × Nat), assocLookup k l = none →
      assocLookup k (l ++ [(k, v)]) = some v := by
  intro l
  induction l with
  | nil => intro _; simp [assocLookup]
  | cons hd tl ih =>
      intro h
      obtain ⟨k1, v1⟩ := hd
      simp only [assocLookup, List.cons_append] at h ⊢
      by_cases hk : k1 = k
      · rw [if_pos hk] at h; cases h
      · rw [if_neg hk] at h ⊢
        exact ih h

theorem not_mem_of_assocLookup_none (k : String) :
    ∀ l : List (String × Nat), assocLookup k l = none →
      k ∉ l.map Prod.fst := by
  intro l
  induction l with
  | nil => intro _; simp
  | cons hd tl ih =>
      intro h
      obtain ⟨k1, v1⟩ := hd
      simp only [assocLookup] at h
      by_cases hk : k1 = k
      · rw [if_pos hk] at h; cases h
      · rw [if_neg hk] at h
        simp only [List.map_cons, List.mem_cons]
        rintro (h1 | h1)
        · exact hk h1.symm
        · exact ih h h1

/-- After any `_get_moniker_client` call, the parsed location of that
call is cached and maps to the returned connection. -/
theorem getMonikerClient_lookup (st : MonikerClientCache) (s : String) :
    assocLookup (urlparseNetloc s) (getMonikerClient st s).1.entries =
      some (getMonikerClient st s).2 := by
  unfold getMonikerClient
  cases hl : assocLookup (urlparseNetloc s) st.entries with
  | some c => simp [hl]
  | none => simp [hl, assocLookup_append_of_none _ _ _ hl]

/-- A `_get_moniker_client` call whose parsed location is already cached
returns the cached connection and leaves the cache unchanged. -/
theorem getMonikerClient_hit (st : MonikerClientCache) (s : String)
    (c : Nat) (h : assocLookup (urlparseNetloc s) st.entries = some c) :
    getMonikerClient st s = (st, c) := by
  simp [getMonikerClient, h]

/-- `_get_moniker_client` preserves the at-most-one-entry-per-location
cache invariant. -/
theorem getMonikerClient_preserves_nodup (st : MonikerClientCache)
    (s : String) (hn : cacheKeysNodup st) :
    cacheKeysNodup (getMonikerClient st s).1 := by
  unfold getMonikerClient
  cases hl : assocLookup (urlparseNetloc s) st.entries with
  | some c => simpa [hl] using hn
  | none =>
      have hk : urlparseNetloc s ∉ st.entries.map Prod.fst :=
        not_mem_of_assocLookup_none _ _ hl
      simp only [hl, cacheKeysNodup, List.map_append, List.map_cons,
        List.map_nil]
      rw [List.nodup_append]
      refine ⟨hn, List.nodup_singleton _, ?_⟩
      intro a ha hmem
      simp only [List.mem_singleton] at hmem
      subst hmem
      exact hk ha

/-- Claim C6: the moniker connection cache keeps at most one connection
per parsed host:port.  Two `_get_moniker_client` calls whose location
strings parse to the same netloc (even if the full urls differ) return
the identical connection object, the second call leaves the cache
unchanged (no new connection is created), and the cache keys stay
pairwise distinct. -/
theorem moniker_cache_one_connection_per_netloc
    (st : MonikerClientCache) (s1 s2 : String)
    (h : urlparseNetloc s1 = urlparseNetloc s2) :
    getMonikerClient (getMonikerClient st s1).1 s2 =
        ((getMonikerClient st s1).1, (getMonikerClient st s1).2) ∧
      (cacheKeysNodup st → cacheKeysNodup (getMonikerClient st s1).1) := by
  constructor
  · apply getMonikerClient_hit
    rw [← h]
    exact getMonikerClient_lookup st s1
  · exact getMonikerClient_preserves_nodup st s1

/-- Witness for claim C6: the same host:port reached through two
different full urls, starting from an empty cache. -/
theorem moniker_cache_one_connection_per_netloc_witness :
    urlparseNetloc "http://localhost:50051" =
        urlparseNetloc "http://localhost:50051/extra" ∧
      getMonikerClient
          (getMonikerClient ⟨[], 0⟩ "http://localhost:50051").1
          "http://localhost:50051/extra" =
        ((getMonikerClient ⟨[], 0⟩ "http://localhost:50051").1,
          (getMonikerClient ⟨[], 0⟩ "http://localhost:50051").2) :=
  ⟨by decide,
   (moniker_cache_one_connection_per_netloc ⟨[], 0⟩
      "http://localhost:50051" "http://localhost:50051/extra" (by decide)).1⟩

/-- Claim C7 (spec-modelled): the client is a one-way open-to-closed
state machine.  After `close` runs, every publish or read operation
fails fast with the typed client-is-closed error (no network interaction
is reached), and calling `close` a second time is a no-op that does not
raise. -/
theorem client_close_state_machine :
    (∀ (c : DataStoreClientModel) (α : Type) (op : α),
        (c.close).runOperation op = .error (.runtimeError clientClosedMsg)) ∧
    (∀ c : DataStoreClientModel, c.close.close = c.close) ∧
    (∀ c : DataStoreClientModel, (c.close).closed = true) :=
  ⟨fun _ _ _ => rfl, fun _ => rfl, fun _ => rfl⟩

/-- Witness for claim C7: a freshly opened client, closed once, rejects
an operation; closing it again is the identity. -/
theorem client_close_state_machine_witness :
    (DataStoreClientModel.mk false).close.runOperation (42 : Nat) =
        .error (.runtimeError clientClosedMsg) ∧
      (DataStoreClientModel.mk false).close.close =
        (DataStoreClientModel.mk false).close :=
  ⟨client_close_state_machine.1 ⟨false⟩ Nat 42,
   client_close_state_machine.2.1 ⟨false⟩⟩

/-- Claim C8: the read path recognizes exactly the eight listed wire
types and has no branch for the wire `Scalar`: any envelope whose url is
outside the eight raises the unsupported-data-type error, in particular
the `Scalar` envelope, so a published scalar can never be read back;
moreover `conversion.py` imports a `ScalarReadConverter` that
`read_converters.py` never defines, so its read registry cannot even be
constructed (the module import fails). -/
theorem read_path_eight_wire_types_no_scalar :
    recognizedDataTypeUrls =
        [ typeUrlBase ++ doubleAnalogWaveformFullName
        , typeUrlBase ++ i16AnalogWaveformFullName
        , typeUrlBase ++ doubleComplexWaveformFullName
        , typeUrlBase ++ i16ComplexWaveformFullName
        , typeUrlBase ++ doubleSpectrumFullName
        , typeUrlBase ++ digitalWaveformFullName
        , typeUrlBase ++ doubleXYDataFullName
        , typeUrlBase ++ vectorFullName
        ] ∧
    recognizedDataTypeUrls.length = 8 ∧
    (typeUrlBase ++ scalarFullName) ∉ recognizedDataTypeUrls ∧
    (∀ env : AnyProto, env.typeUrl ∉ recognizedDataTypeUrls →
      unpackData env =
        .error (.typeError ("Unsupported data type URL: " ++ env.typeUrl))) ∧
    (∀ s : ScalarVal, roundTrip (.scalar s) =
      .error (.typeError ("Unsupported data type URL: "
        ++ typeUrlBase ++ scalarFullName))) ∧
    "ScalarReadConverter" ∈ conversionImportsFromReadConverters ∧
    "ScalarReadConverter" ∉ readConvertersDefinedNames := by
  refine ⟨rfl, rfl, by decide, ?_, fun s => rfl, by decide, by decide⟩
  intro env h
  simp only [recognizedDataTypeUrls, List.mem_cons, List.not_mem_nil,
    or_false, not_or] at h
  obtain ⟨h1, h2, h3, h4, h5, h6, h7, h8⟩ := h
  simp [unpackData, h1, h2, h3, h4, h5, h6, h7, h8]

/-- Witness for claim C8: the wire `Scalar` envelope itself is rejected
by `_unpack_data`. -/
theorem read_path_eight_wire_types_no_scalar_witness :
    unpackData ⟨typeUrlBase ++ scalarFullName, .scalar ⟨.boolValue true, ""⟩⟩ =
      .error (.typeError ("Unsupported data type URL: "
        ++ (typeUrlBase ++ scalarFullName))) :=
  read_path_eight_wire_types_no_scalar.2.2.2.1 _ (by decide)

end Datastore
